import Mathlib

/-!
# Verification of the gaia_visualizer migration-flow pipeline

Shallow embedding of the gaia_visualizer repository's core logic:

* the offline R flow aggregation (`create_migration_data` in the data
  preparation script), which turns a 3-dimensional migration array and a
  2-dimensional average matrix into lists of directed flow edges;
* the in-browser helpers of `EurasiaMap.tsx` (`hasValidProperties`,
  `generateRandomArcs`, `getArcColor`, the `ArcLayer` width accessor, the
  layer list construction, the hexagon-data loading effect, and the
  `onViewStateChange` camera merge);
* the `App.tsx` interaction handlers (`handlePointClick`, the sidebar
  resize mouse-move handler with its width clamp).

Numbers of the JavaScript/R sources are modelled as rationals; machine
floating point is not modelled.  Randomness (`Math.random()`) is modelled
as an explicit stream of rationals in `[0, 1)`.
-/

namespace Gaia

/-! ## Decimal printing of natural numbers

The R script stringifies 1-based region indices with `as.character(i)`;
the embedding uses `Nat.repr` for this.  To reason about the emitted
`source_id`/`target_id` strings we prove that `Nat.repr` is injective,
by relating `Nat.toDigitsCore` to a fuel-free digit-list function and
reading the digits back. -/

/-- Fuel-free most-significant-digit-first decimal digit characters of `n`,
mirroring what `Nat.toDigitsCore 10` computes with enough fuel. -/
def digitsChars (n : Nat) : List Char :=
  if h : n < 10 then [Nat.digitChar n]
  else digitsChars (n / 10) ++ [Nat.digitChar (n % 10)]
termination_by n
decreasing_by
  exact Nat.div_lt_self (by omega) (by norm_num)

theorem digitsChars_lt (n : Nat) (h : n < 10) : digitsChars n = [Nat.digitChar n] := by
  rw [digitsChars, dif_pos h]

theorem digitsChars_ge (n : Nat) (h : ¬ n < 10) :
    digitsChars n = digitsChars (n / 10) ++ [Nat.digitChar (n % 10)] := by
  rw [digitsChars, dif_neg h]

theorem toDigitsCore_eq_digitsChars :
    ∀ (f n : Nat) (acc : List Char), n < 10 ^ (f + 1) →
      Nat.toDigitsCore 10 (f + 1) n acc = digitsChars n ++ acc := by
  intro f
  induction f with
  | zero =>
    intro n acc hn
    have hdiv : n / 10 = 0 := Nat.div_eq_of_lt (by simpa using hn)
    have hmod : n % 10 = n := Nat.mod_eq_of_lt (by simpa using hn)
    simp [Nat.toDigitsCore, hdiv, hmod, digitsChars_lt n (by simpa using hn)]
  | succ f ih =>
    intro n acc hn
    by_cases hdiv : n / 10 = 0
    · have hn10 : n < 10 := by omega
      have hmod : n % 10 = n := Nat.mod_eq_of_lt hn10
      simp [Nat.toDigitsCore, hdiv, hmod, digitsChars_lt n hn10]
    · have hn10 : ¬ n < 10 := by
        intro h
        exact hdiv (Nat.div_eq_of_lt h)
      have hlt : n / 10 < 10 ^ (f + 1) := by
        rw [Nat.div_lt_iff_lt_mul (by norm_num : 0 < 10)]
        calc n < 10 ^ (f + 1 + 1) := hn
        _ = 10 ^ (f + 1) * 10 := by ring
      have step : Nat.toDigitsCore 10 (f + 1 + 1) n acc =
          Nat.toDigitsCore 10 (f + 1) (n / 10) (Nat.digitChar (n % 10) :: acc) := by
        simp [Nat.toDigitsCore, hdiv]
      rw [step, ih (n / 10) (Nat.digitChar (n % 10) :: acc) hlt,
        digitsChars_ge n hn10, List.append_assoc]
      simp

theorem repr_eq_digitsChars (n : Nat) : Nat.repr n = (digitsChars n).asString := by
  have hfuel : n < 10 ^ (n + 1) := by
    calc n < 10 ^ n := Nat.lt_pow_self (by norm_num) n
    _ ≤ 10 ^ (n + 1) := Nat.pow_le_pow_right (by norm_num) (Nat.le_succ n)
  show (Nat.toDigits 10 n).asString = (digitsChars n).asString
  unfold Nat.toDigits
  rw [toDigitsCore_eq_digitsChars n n [] hfuel, List.append_nil]

theorem digitChar_toNat (n : Nat) (h : n < 10) : (Nat.digitChar n).toNat = 48 + n := by
  interval_cases n <;> rfl

/-- Reads a most-significant-digit-first decimal character list back to a
natural number. -/
def valChars (l : List Char) : Nat :=
  l.foldl (fun a c => a * 10 + (c.toNat - 48)) 0

theorem valChars_append_singleton (l : List Char) (c : Char) :
    valChars (l ++ [c]) = valChars l * 10 + (c.toNat - 48) := by
  unfold valChars
  rw [List.foldl_append]
  rfl

theorem valChars_digitsChars (n : Nat) : valChars (digitsChars n) = n := by
  induction n using Nat.strong_induction_on with
  | _ n ih =>
    by_cases h : n < 10
    · rw [digitsChars_lt n h]
      unfold valChars
      simp [List.foldl, digitChar_toNat n h]
    · rw [digitsChars_ge n h, valChars_append_singleton,
        ih (n / 10) (Nat.div_lt_self (by omega) (by norm_num)),
        digitChar_toNat (n % 10) (Nat.mod_lt n (by norm_num))]
      omega

theorem natRepr_injective : Function.Injective Nat.repr := by
  intro m n h
  rw [repr_eq_digitsChars, repr_eq_digitsChars] at h
  have hl : digitsChars m = digitsChars n := congrArg String.data h
  have := congrArg valChars hl
  rwa [valChars_digitsChars, valChars_digitsChars] at this

/-! ## Flow aggregation (offline R script)

Embedding of `create_migration_data` from the data-preparation R script.
A 3-dimensional migration array of dimensions `X × X × Z` is modelled as a
function from 1-based indices `(i, j, t)` to a rational magnitude, and the
2-dimensional average matrix likewise.  The R loops append a flow for
every ordered pair `(i, j)` with `i ≠ j` and a strictly positive entry,
in row-major iteration order; `as.character` is modelled by `Nat.repr`. -/

/-- One directed migration edge as emitted by `create_migration_data`. -/
structure Flow where
  source_id : String
  target_id : String
  value : ℚ
deriving DecidableEq, Repr

/-- The inner double loop of `create_migration_data` at a fixed time step:
for `i` in `1..X`, `j` in `1..X`, emit `⟨as.character(i), as.character(j),
entry i j⟩` whenever `i ≠ j` and `entry i j > 0`. -/
def flowsOfMatrix (X : Nat) (entry : Nat → Nat → ℚ) : List Flow :=
  (List.range X).flatMap fun i0 =>
    (List.range X).filterMap fun j0 =>
      let i := i0 + 1
      let j := j0 + 1
      if i ≠ j ∧ entry i j > 0 then
        some { source_id := Nat.repr i, target_id := Nat.repr j, value := entry i j }
      else
        none

/-- Result object of `create_migration_data`. -/
structure MigrationData where
  time_series : List (List Flow)
  average_flux : List Flow
deriving DecidableEq, Repr

/-- `create_migration_data(migration_array, avg_migration_matrix)` where the
3-dimensional array has dimensions `X × X × Z` (1-based indices). -/
def create_migration_data (migration_array : Nat → Nat → Nat → ℚ)
    (avg_migration_matrix : Nat → Nat → ℚ) (X Z : Nat) : MigrationData :=
  { time_series :=
      (List.range Z).map fun t0 => flowsOfMatrix X fun i j => migration_array i j (t0 + 1)
    average_flux := flowsOfMatrix X avg_migration_matrix }

theorem mem_flowsOfMatrix {X : Nat} {entry : Nat → Nat → ℚ} {e : Flow}
    (he : e ∈ flowsOfMatrix X entry) :
    ∃ i j, i ≠ j ∧ 0 < entry i j ∧
      e = { source_id := Nat.repr i, target_id := Nat.repr j, value := entry i j } := by
  unfold flowsOfMatrix at he
  rcases List.mem_flatMap.mp he with ⟨i0, _, hin⟩
  rcases List.mem_filterMap.mp hin with ⟨j0, _, hj⟩
  by_cases hc : i0 + 1 ≠ j0 + 1 ∧ entry (i0 + 1) (j0 + 1) > 0
  · rw [if_pos hc] at hj
    exact ⟨i0 + 1, j0 + 1, hc.1, hc.2, (Option.some.inj hj).symm⟩
  · rw [if_neg hc] at hj
    exact absurd hj (by simp)

theorem flow_wellformed {X : Nat} {entry : Nat → Nat → ℚ} {e : Flow}
    (he : e ∈ flowsOfMatrix X entry) : e.source_id ≠ e.target_id ∧ 0 < e.value := by
  rcases mem_flowsOfMatrix he with ⟨i, j, hij, hpos, rfl⟩
  refine ⟨fun h => hij (natRepr_injective h), hpos⟩

/-! ## Browser data model (`types.ts` / `EurasiaMap.tsx`)

Optional object fields of the TypeScript interfaces are modelled with
`Option`; a key that may be absent or `null` is `none` in either case. -/

/-- `Centerpoint` of a hexagon feature; the `'longitude' in …` /
`'latitude' in …` key-presence checks of `hasValidProperties` are modelled
by making both fields optional. -/
structure Centerpoint where
  longitude : Option ℚ
  latitude : Option ℚ
deriving DecidableEq, Repr

/-- `HexagonProperties` of a hexagon feature. -/
structure HexagonProperties where
  state_id : Nat
  continent_id : String
  centerpoint : Option Centerpoint
deriving DecidableEq, Repr

/-- A GeoJSON feature; `properties` may be `null`. -/
structure Feature where
  properties : Option HexagonProperties
deriving DecidableEq, Repr

instance : Inhabited Feature := ⟨{ properties := none }⟩

/-- A GeoJSON feature collection (`GeoJsonData`). -/
structure GeoJsonData where
  features : List Feature
deriving DecidableEq, Repr

/-- `ArcData` of `EurasiaMap.tsx`: source/target positions and a weight. -/
structure ArcData where
  source : ℚ × ℚ
  target : ℚ × ℚ
  weight : ℚ
deriving DecidableEq, Repr

/-- `hasValidProperties`: the feature's `properties` is non-null, contains a
non-null `centerpoint`, and the centerpoint has `longitude` and `latitude`
keys. -/
def hasValidProperties (f : Feature) : Bool :=
  match f.properties with
  | none => false
  | some p =>
    match p.centerpoint with
    | none => false
    | some c => c.longitude.isSome && c.latitude.isSome

/-- The `[longitude, latitude]` pair read off a feature's centerpoint
(defaulting absent components to `0`; `generateRandomArcs` only reads them
from features that passed `hasValidProperties`). -/
def centerCoords (f : Feature) : ℚ × ℚ :=
  match f.properties with
  | none => (0, 0)
  | some p =>
    match p.centerpoint with
    | none => (0, 0)
    | some c => (c.longitude.getD 0, c.latitude.getD 0)

/-- `Math.floor(r * len)` as a list index, for a random draw `r`. -/
def floorIndex (r : ℚ) (len : Nat) : Nat :=
  (⌊r * (len : ℚ)⌋).toNat

/-- The `validFeatures` local of `generateRandomArcs`: the features that
pass the `hasValidProperties` guard. -/
def validFeaturesOf (hexagonData : GeoJsonData) : List Feature :=
  hexagonData.features.filter hasValidProperties

/-- `generateRandomArcs(hexagonData, count)`: filters the features through
`hasValidProperties`; with fewer than 2 valid features it returns `[]`,
otherwise it builds `count` arcs, drawing the source index, target index
and weight of arc `i` from the random stream `ρ` at positions `3*i`,
`3*i+1`, `3*i+2` (each draw models one `Math.random()` call in `[0,1)`). -/
def generateRandomArcs (hexagonData : GeoJsonData) (ρ : Nat → ℚ)
    (count : Nat := 50) : List ArcData :=
  if (validFeaturesOf hexagonData).length < 2 then
    []
  else
    (List.range count).map fun i =>
      { source := centerCoords ((validFeaturesOf hexagonData).getD
          (floorIndex (ρ (3 * i)) (validFeaturesOf hexagonData).length) default)
        target := centerCoords ((validFeaturesOf hexagonData).getD
          (floorIndex (ρ (3 * i + 1)) (validFeaturesOf hexagonData).length) default)
        weight := ρ (3 * i + 2) * 10 }

/-- `getArcColor(weight)`: `[min(255, 255*(0.5 + w/10)), max(0, 255*(1 - w/10)), 0]`. -/
def getArcColor (weight : ℚ) : ℚ × ℚ × ℚ :=
  (min 255 (255 * (1/2 + weight / 10)), max 0 (255 * (1 - weight / 10)), 0)

/-- The `ArcLayer` width accessor `getWidth: d => 1 + d.weight * 2`. -/
def getWidth (weight : ℚ) : ℚ :=
  1 + weight * 2

/-! ## Layer construction and data loading (`EurasiaMap.tsx`) -/

/-- `PointData` of `types.ts`: a sampled location. -/
structure PointData where
  node_id : Nat
  longitude : ℚ
  latitude : ℚ
deriving DecidableEq, Repr

/-- One deck.gl layer together with the data it renders. -/
inductive RenderLayer
  | hexagonLayer (features : List Feature)
  | pointLayer (points : List PointData)
  | arcLayer (arcs : List ArcData)
deriving DecidableEq, Repr

/-- The `layers` memo of `EurasiaMap.tsx`: with no hexagon data it returns
the empty list; otherwise the hexagon layer, the point layer, and — when
`showArcs` is set — the arc layer. -/
def layersOf (hexagonData : Option GeoJsonData) (points : List PointData)
    (arcData : List ArcData) (showArcs : Bool) : List RenderLayer :=
  match hexagonData with
  | none => []
  | some d =>
    [RenderLayer.hexagonLayer d.features, RenderLayer.pointLayer points] ++
      (if showArcs then [RenderLayer.arcLayer arcData] else [])

/-- The state touched by the `loadHexagonData` effect. -/
structure MapComponentState where
  hexagonData : Option GeoJsonData
  arcData : List ArcData
  isLoading : Bool
deriving DecidableEq, Repr

/-- Initial component state: no hexagon data, no arcs, loading. -/
def initialMapComponentState : MapComponentState :=
  { hexagonData := none, arcData := [], isLoading := true }

/-- The `loadHexagonData` effect, with the outcome of `fetch` + `json()`
passed in as an `Except`: on success it stores the data and the generated
arcs; on failure the `catch` block logs and changes nothing; the `finally`
block clears `isLoading` in both cases. -/
def loadHexagonData (result : Except String GeoJsonData) (ρ : Nat → ℚ)
    (s : MapComponentState) : MapComponentState :=
  match result with
  | Except.ok data =>
    { s with hexagonData := some data, arcData := generateRandomArcs data ρ 50,
             isLoading := false }
  | Except.error _ => { s with isLoading := false }

/-- The deck.gl camera state. -/
structure MapViewState where
  longitude : ℚ
  latitude : ℚ
  zoom : ℚ
  pitch : ℚ
  bearing : ℚ
deriving DecidableEq, Repr

/-- A reported view state in which any field may be nullish. -/
structure PartialViewState where
  longitude : Option ℚ
  latitude : Option ℚ
  zoom : Option ℚ
  pitch : Option ℚ
  bearing : Option ℚ
deriving DecidableEq, Repr

/-- The `onViewStateChange` merge: each field of the new camera state is
`newViewState.field ?? viewState.field`. -/
def onViewStateChange (viewState : MapViewState) (newViewState : PartialViewState) :
    MapViewState :=
  { longitude := newViewState.longitude.getD viewState.longitude
    latitude := newViewState.latitude.getD viewState.latitude
    zoom := newViewState.zoom.getD viewState.zoom
    pitch := newViewState.pitch.getD viewState.pitch
    bearing := newViewState.bearing.getD viewState.bearing }

/-! ## Application state and handlers (`App.tsx`) -/

def DEFAULT_SIDEBAR_WIDTH : ℚ := 320

def MIN_SIDEBAR_WIDTH : ℚ := 200

def MAX_SIDEBAR_WIDTH : ℚ := 600

/-- The `App` component state. -/
structure AppState where
  showRightSidebar : Bool
  showLeftSidebar : Bool
  selectedPoint : Option PointData
  leftSidebarWidth : ℚ
  rightSidebarWidth : ℚ
  isResizing : Bool
deriving DecidableEq, Repr

/-- Initial `App` state. -/
def initialAppState : AppState :=
  { showRightSidebar := true, showLeftSidebar := false, selectedPoint := none
    leftSidebarWidth := DEFAULT_SIDEBAR_WIDTH, rightSidebarWidth := DEFAULT_SIDEBAR_WIDTH
    isResizing := false }

/-- `handlePointClick(point)`: clicking the already-selected point clears
the selection and closes the left sidebar; otherwise the clicked point is
selected and the left sidebar opened. -/
def handlePointClick (point : PointData) (s : AppState) : AppState :=
  match s.selectedPoint with
  | some sel =>
    if sel.node_id = point.node_id then
      { s with selectedPoint := none, showLeftSidebar := false }
    else
      { s with selectedPoint := some point, showLeftSidebar := true }
  | none => { s with selectedPoint := some point, showLeftSidebar := true }

/-- Which sidebar a resize drag is acting on. -/
inductive SidebarSide
  | left
  | right
deriving DecidableEq, Repr

/-- One mouse-move event during a resize drag: the pointer's `clientX` and
the window's `innerWidth`. -/
structure MouseMoveEvent where
  side : SidebarSide
  clientX : ℚ
  innerWidth : ℚ
deriving DecidableEq, Repr

/-- The `handleMouseMove` handler installed by `startResizing`: the left
sidebar width is the distance from the left edge, the right sidebar width
the distance from the right edge, both clamped with
`Math.min(Math.max(width, MIN_SIDEBAR_WIDTH), MAX_SIDEBAR_WIDTH)`. -/
def handleMouseMove (e : MouseMoveEvent) (s : AppState) : AppState :=
  match e.side with
  | SidebarSide.left =>
    { s with leftSidebarWidth := min (max e.clientX MIN_SIDEBAR_WIDTH) MAX_SIDEBAR_WIDTH }
  | SidebarSide.right =>
    let width := e.innerWidth - e.clientX
    { s with rightSidebarWidth := min (max width MIN_SIDEBAR_WIDTH) MAX_SIDEBAR_WIDTH }

/-! ## Flow/coordinate join (spec-modelled) -/

/-- A flow record augmented with resolved endpoint coordinates. -/
structure FlowWithCoords where
  flow : Flow
  sourceCoord : ℚ × ℚ
  targetCoord : ℚ × ℚ
deriving DecidableEq, Repr

/-- Modelled from the spec: the in-browser flow/coordinate join (spec §4.4)
is not present in the checked-out sources — only its input declarations
(`FluxDataEntry` / `FluxDataResponse` in `types.ts` and the imported
`flux.json` of `EurasiaMap.tsx`) are.  Per the spec it resolves each flow
record's `source_id` and `target_id` against the centroid lookup and keeps
exactly the records where both resolve, each augmented with its resolved
coordinate pair; records failing resolution are dropped. -/
def joinFlows (lookup : String → Option (ℚ × ℚ)) (flows : List Flow) :
    List FlowWithCoords :=
  flows.filterMap fun f =>
    match lookup f.source_id, lookup f.target_id with
    | some s, some t => some { flow := f, sourceCoord := s, targetCoord := t }
    | _, _ => none

/-! ## Helper lemmas -/

theorem floorIndex_lt (r : ℚ) (len : Nat) (h0 : 0 ≤ r) (h1 : r < 1) (hlen : 0 < len) :
    floorIndex r len < len := by
  unfold floorIndex
  have hcast : (0 : ℚ) < (len : ℚ) := by exact_mod_cast hlen
  have hmul : r * (len : ℚ) < (len : ℚ) := by nlinarith
  have hf : ⌊r * (len : ℚ)⌋ < (len : ℤ) := Int.floor_lt.mpr (by exact_mod_cast hmul)
  omega

theorem getD_mem {α : Type} [Inhabited α] (l : List α) (i : Nat) (d : α)
    (h : i < l.length) : l.getD i d ∈ l := by
  rw [List.getD_eq_getElem?_getD, List.getElem?_eq_getElem h]
  simpa using List.getElem_mem h

/-- Both sidebar widths lie within the configured clamp range. -/
def widthsInRange (s : AppState) : Prop :=
  MIN_SIDEBAR_WIDTH ≤ s.leftSidebarWidth ∧ s.leftSidebarWidth ≤ MAX_SIDEBAR_WIDTH ∧
    MIN_SIDEBAR_WIDTH ≤ s.rightSidebarWidth ∧ s.rightSidebarWidth ≤ MAX_SIDEBAR_WIDTH

theorem widthsInRange_handleMouseMove (e : MouseMoveEvent) (s : AppState)
    (h : widthsInRange s) : widthsInRange (handleMouseMove e s) := by
  have hminmax : MIN_SIDEBAR_WIDTH ≤ MAX_SIDEBAR_WIDTH := by
    norm_num [MIN_SIDEBAR_WIDTH, MAX_SIDEBAR_WIDTH]
  obtain ⟨h1, h2, h3, h4⟩ := h
  rcases e with ⟨side, clientX, innerWidth⟩
  cases side
  · exact ⟨le_min (le_max_right _ _) hminmax, min_le_right _ _, h3, h4⟩
  · exact ⟨h1, h2, le_min (le_max_right _ _) hminmax, min_le_right _ _⟩

theorem widthsInRange_foldl (events : List MouseMoveEvent) (s : AppState)
    (h : widthsInRange s) :
    widthsInRange (events.foldl (fun s e => handleMouseMove e s) s) := by
  induction events generalizing s with
  | nil => exact h
  | cons e es ih => exact ih _ (widthsInRange_handleMouseMove e s h)

/-- A hexagon feature with a fully populated centerpoint, for concrete
inputs. -/
def testFeature (sid : Nat) (lon lat : ℚ) : Feature :=
  { properties :=
      some
        { state_id := sid
          continent_id := "EU"
          centerpoint := some { longitude := some lon, latitude := some lat } } }

/-- A two-feature hexagon dataset whose features both pass the validity
guard. -/
def testGeoJson : GeoJsonData :=
  { features := [testFeature 1 10 20, testFeature 2 30 40] }

/-- The 2×2 flux matrix `[[0,5],[3,0]]` (1-based indices), constant in the
time dimension, used as a concrete input for the aggregation scenario. -/
def testFluxArray : Nat → Nat → Nat → ℚ := fun i j _ =>
  if i = 1 ∧ j = 2 then 5 else if i = 2 ∧ j = 1 then 3 else 0

/-- The matching 2×2 average matrix `[[0,5],[3,0]]`. -/
def testAvgMatrix : Nat → Nat → ℚ := fun i j => testFluxArray i j 1

end Gaia

/-- C1: every edge emitted by the flow aggregation `create_migration_data`,
in every time-step list and in the average list, has `source_id ≠ target_id`
and a strictly positive `value`: self-loop entries and entries `≤ 0`
produce no edge. -/
theorem claim_C1_aggregation_wellformed
    (migration_array : Nat → Nat → Nat → ℚ) (avg : Nat → Nat → ℚ) (X Z : Nat) :
    (∀ ts ∈ (Gaia.create_migration_data migration_array avg X Z).time_series,
      ∀ e ∈ ts, e.source_id ≠ e.target_id ∧ 0 < e.value) ∧
    (∀ e ∈ (Gaia.create_migration_data migration_array avg X Z).average_flux,
      e.source_id ≠ e.target_id ∧ 0 < e.value) := by
  constructor
  · intro ts hts e he
    rcases List.mem_map.mp hts with ⟨t0, _, rfl⟩
    exact Gaia.flow_wellformed he
  · intro e he
    exact Gaia.flow_wellformed he

/-- Witness for C1: instantiated at the concrete flux array `[[0,5],[3,0]]`
with one time step, on the emitted edge `⟨"1", "2", 5⟩`. -/
theorem claim_C1_aggregation_wellformed_witness :
    ({ source_id := "1", target_id := "2", value := 5 } : Gaia.Flow).source_id ≠
      ({ source_id := "1", target_id := "2", value := 5 } : Gaia.Flow).target_id ∧
    (0 : ℚ) < ({ source_id := "1", target_id := "2", value := 5 } : Gaia.Flow).value :=
  (claim_C1_aggregation_wellformed Gaia.testFluxArray Gaia.testAvgMatrix 2 1).1
    [{ source_id := "1", target_id := "2", value := 5 },
     { source_id := "2", target_id := "1", value := 3 }]
    (by decide)
    { source_id := "1", target_id := "2", value := 5 }
    (by decide)

/-- C3: the flow/coordinate join keeps exactly the input records whose two
endpoints both resolve in the centroid lookup, each augmented with its
resolved coordinates, and its output is never longer than its input. -/
theorem claim_C3_join_exact_subset (lookup : String → Option (ℚ × ℚ))
    (flows : List Gaia.Flow) :
    (∀ fc : Gaia.FlowWithCoords,
      fc ∈ Gaia.joinFlows lookup flows ↔
        fc.flow ∈ flows ∧ lookup fc.flow.source_id = some fc.sourceCoord ∧
          lookup fc.flow.target_id = some fc.targetCoord) ∧
    (Gaia.joinFlows lookup flows).length ≤ flows.length := by
  constructor
  · intro fc
    constructor
    · intro hm
      rcases List.mem_filterMap.mp hm with ⟨a, ha, hfa⟩
      cases hs : lookup a.source_id with
      | none => rw [hs] at hfa; simp at hfa
      | some s =>
        cases ht : lookup a.target_id with
        | none => rw [hs, ht] at hfa; simp at hfa
        | some t =>
          rw [hs, ht] at hfa
          simp only [Option.some.injEq] at hfa
          subst hfa
          exact ⟨ha, hs, ht⟩
    · rintro ⟨hmem, hs, ht⟩
      apply List.mem_filterMap.mpr
      refine ⟨fc.flow, hmem, ?_⟩
      rw [hs, ht]
  · exact List.length_filterMap_le _ _

/-- C4 counterexample: the arc width accessor is `1 + 2·w`, which is not
proportional to the square root of the weight (at weight `0` it returns
`1`, while any multiple of `√0` is `0`). -/
theorem claim_C4_sqrt_counterexample :
    ¬ ∃ c : ℝ, ∀ v : ℚ, 0 ≤ v → ((Gaia.getWidth v : ℚ) : ℝ) = c * Real.sqrt ((v : ℚ) : ℝ) := by
  rintro ⟨c, h⟩
  have h0 := h 0 le_rfl
  norm_num [Gaia.getWidth, Real.sqrt_zero] at h0

/-- C4 (amended): the rendered arc width is the affine function `1 + 2·w`
of the weight — linear, not square-root — and strictly increasing in the
weight. -/
theorem claim_C4_width_affine (u v : ℚ) (h : u < v) :
    Gaia.getWidth v = 1 + 2 * v ∧ Gaia.getWidth u < Gaia.getWidth v := by
  unfold Gaia.getWidth
  constructor
  · ring
  · linarith

/-- Witness for C4 (amended) at weights `0 < 1`. -/
theorem claim_C4_width_affine_witness :
    Gaia.getWidth 1 = 1 + 2 * 1 ∧ Gaia.getWidth 0 < Gaia.getWidth 1 :=
  claim_C4_width_affine 0 1 (by norm_num)

/-- C5: clicking a point selects it and opens the left panel unless it is
the already-selected point, in which case the selection is cleared and the
left panel closed. -/
theorem claim_C5_point_click (s : Gaia.AppState) (point : Gaia.PointData) :
    ((s.selectedPoint = none ∨
        (∃ sel, s.selectedPoint = some sel ∧ sel.node_id ≠ point.node_id)) →
      (Gaia.handlePointClick point s).selectedPoint = some point ∧
        (Gaia.handlePointClick point s).showLeftSidebar = true) ∧
    (∀ sel, s.selectedPoint = some sel → sel.node_id = point.node_id →
      (Gaia.handlePointClick point s).selectedPoint = none ∧
        (Gaia.handlePointClick point s).showLeftSidebar = false) := by
  constructor
  · intro hcase
    rcases hcase with hnone | ⟨sel, hsel, hne⟩
    · simp [Gaia.handlePointClick, hnone]
    · simp [Gaia.handlePointClick, hsel, hne]
  · intro sel hsel heq
    simp [Gaia.handlePointClick, hsel, heq]

/-- Witness for C5: clicking point `⟨1, 0, 0⟩` from the initial state (no
selection) selects it and opens the left panel. -/
theorem claim_C5_point_click_witness :
    (Gaia.handlePointClick { node_id := 1, longitude := 0, latitude := 0 }
        Gaia.initialAppState).selectedPoint =
      some { node_id := 1, longitude := 0, latitude := 0 } ∧
    (Gaia.handlePointClick { node_id := 1, longitude := 0, latitude := 0 }
        Gaia.initialAppState).showLeftSidebar = true :=
  (claim_C5_point_click Gaia.initialAppState
    { node_id := 1, longitude := 0, latitude := 0 }).1 (Or.inl rfl)

/-- C6: the camera merge takes each of the five fields from the reported
new view state when that field is present and falls back to the previous
camera state's value when it is nullish. -/
theorem claim_C6_camera_merge (prev : Gaia.MapViewState) (new : Gaia.PartialViewState) :
    ((∀ x, new.longitude = some x → (Gaia.onViewStateChange prev new).longitude = x) ∧
      (new.longitude = none → (Gaia.onViewStateChange prev new).longitude = prev.longitude)) ∧
    ((∀ x, new.latitude = some x → (Gaia.onViewStateChange prev new).latitude = x) ∧
      (new.latitude = none → (Gaia.onViewStateChange prev new).latitude = prev.latitude)) ∧
    ((∀ x, new.zoom = some x → (Gaia.onViewStateChange prev new).zoom = x) ∧
      (new.zoom = none → (Gaia.onViewStateChange prev new).zoom = prev.zoom)) ∧
    ((∀ x, new.pitch = some x → (Gaia.onViewStateChange prev new).pitch = x) ∧
      (new.pitch = none → (Gaia.onViewStateChange prev new).pitch = prev.pitch)) ∧
    ((∀ x, new.bearing = some x → (Gaia.onViewStateChange prev new).bearing = x) ∧
      (new.bearing = none → (Gaia.onViewStateChange prev new).bearing = prev.bearing)) := by
  refine ⟨⟨?_, ?_⟩, ⟨?_, ?_⟩, ⟨?_, ?_⟩, ⟨?_, ?_⟩, ⟨?_, ?_⟩⟩ <;>
    · intros
      simp_all [Gaia.onViewStateChange]

/-- Witness for C6: merging the initial camera `⟨75, 30, 5/2, 45, 0⟩` with
a partial update that only reports `longitude := 80` yields `80`. -/
theorem claim_C6_camera_merge_witness :
    (Gaia.onViewStateChange
        { longitude := 75, latitude := 30, zoom := 5/2, pitch := 45, bearing := 0 }
        { longitude := some 80, latitude := none, zoom := none, pitch := none,
          bearing := none }).longitude = 80 :=
  (claim_C6_camera_merge
    { longitude := 75, latitude := 30, zoom := 5/2, pitch := 45, bearing := 0 }
    { longitude := some 80, latitude := none, zoom := none, pitch := none,
      bearing := none }).1.1 80 rfl

/-- C2: on the flux matrix `[[0,5],[3,0]]` at a single time step, the flow
aggregation emits exactly the edges `⟨"1", "2", 5⟩` and `⟨"2", "1", 3⟩`
(region indices 1-based and stringified), and no self-loop edge. -/
theorem claim_C2_scenario_two_by_two :
    (Gaia.create_migration_data Gaia.testFluxArray Gaia.testAvgMatrix 2 1).time_series =
      [[{ source_id := "1", target_id := "2", value := 5 },
        { source_id := "2", target_id := "1", value := 3 }]] ∧
    ((Gaia.create_migration_data Gaia.testFluxArray Gaia.testAvgMatrix 2 1).time_series.all
      fun ts => ts.all fun e => e.source_id != e.target_id) = true := by
  constructor
  · decide
  · decide

/-- C7 counterexample: after a failed hexagon-dataset load from the initial
component state, the constructed layer list is empty — in particular the
point layer is not rendered, contrary to the claim that it still renders
normally. -/
theorem claim_C7_counterexample :
    Gaia.layersOf
      (Gaia.loadHexagonData (Except.error "HTTP 404") (fun _ => 0)
        Gaia.initialMapComponentState).hexagonData
      [{ node_id := 1, longitude := 0, latitude := 0 }]
      (Gaia.loadHexagonData (Except.error "HTTP 404") (fun _ => 0)
        Gaia.initialMapComponentState).arcData
      true = [] := by
  rfl

/-- C7 (amended): if the hexagon dataset load fails, the error is caught,
the hexagon dataset stays at its initial empty value, the loading flag is
cleared, and no layers are rendered at all — zero hexagon-layer features,
but also no point layer, since the layer list is empty whenever the
hexagon data is absent. -/
theorem claim_C7_load_failure (err : String) (ρ : Nat → ℚ)
    (s : Gaia.MapComponentState) (points : List Gaia.PointData) (showArcs : Bool)
    (h : s.hexagonData = none) :
    (Gaia.loadHexagonData (Except.error err) ρ s).hexagonData = none ∧
    (Gaia.loadHexagonData (Except.error err) ρ s).isLoading = false ∧
    (Gaia.loadHexagonData (Except.error err) ρ s).arcData = s.arcData ∧
    Gaia.layersOf (Gaia.loadHexagonData (Except.error err) ρ s).hexagonData
      points (Gaia.loadHexagonData (Except.error err) ρ s).arcData showArcs = [] := by
  refine ⟨h, rfl, rfl, ?_⟩
  simp [Gaia.loadHexagonData, Gaia.layersOf, h]

/-- Witness for C7 (amended): a failed load from the initial state. -/
theorem claim_C7_load_failure_witness :
    (Gaia.loadHexagonData (Except.error "HTTP 404") (fun _ => 0)
      Gaia.initialMapComponentState).hexagonData = none ∧
    (Gaia.loadHexagonData (Except.error "HTTP 404") (fun _ => 0)
      Gaia.initialMapComponentState).isLoading = false ∧
    (Gaia.loadHexagonData (Except.error "HTTP 404") (fun _ => 0)
      Gaia.initialMapComponentState).arcData = Gaia.initialMapComponentState.arcData ∧
    Gaia.layersOf
      (Gaia.loadHexagonData (Except.error "HTTP 404") (fun _ => 0)
        Gaia.initialMapComponentState).hexagonData
      [{ node_id := 1, longitude := 0, latitude := 0 }]
      (Gaia.loadHexagonData (Except.error "HTTP 404") (fun _ => 0)
        Gaia.initialMapComponentState).arcData
      false = [] :=
  claim_C7_load_failure "HTTP 404" (fun _ => 0) Gaia.initialMapComponentState
    [{ node_id := 1, longitude := 0, latitude := 0 }] false rfl

/-- C8: with fewer than 2 valid features `generateRandomArcs` returns the
empty list; otherwise it returns exactly `count` arcs, and every arc's
source and target coordinates are the centerpoint coordinates of some
feature passing the validity guard. -/
theorem claim_C8_generate_random_arcs (data : Gaia.GeoJsonData) (ρ : Nat → ℚ)
    (count : Nat) (hρ : ∀ n, 0 ≤ ρ n ∧ ρ n < 1) :
    ((Gaia.validFeaturesOf data).length < 2 →
      Gaia.generateRandomArcs data ρ count = []) ∧
    (2 ≤ (Gaia.validFeaturesOf data).length →
      (Gaia.generateRandomArcs data ρ count).length = count ∧
      ∀ arc ∈ Gaia.generateRandomArcs data ρ count,
        (∃ f ∈ Gaia.validFeaturesOf data, arc.source = Gaia.centerCoords f) ∧
        (∃ f ∈ Gaia.validFeaturesOf data, arc.target = Gaia.centerCoords f)) := by
  constructor
  · intro hlt
    unfold Gaia.generateRandomArcs
    rw [if_pos hlt]
  · intro hge
    have hnlt : ¬ (Gaia.validFeaturesOf data).length < 2 := by omega
    have hpos : 0 < (Gaia.validFeaturesOf data).length := by omega
    constructor
    · unfold Gaia.generateRandomArcs
      rw [if_neg hnlt, List.length_map, List.length_range]
    · intro arc harc
      unfold Gaia.generateRandomArcs at harc
      rw [if_neg hnlt] at harc
      rcases List.mem_map.mp harc with ⟨i, _, rfl⟩
      constructor
      · exact ⟨_, Gaia.getD_mem _ _ _
          (Gaia.floorIndex_lt _ _ (hρ (3 * i)).1 (hρ (3 * i)).2 hpos), rfl⟩
      · exact ⟨_, Gaia.getD_mem _ _ _
          (Gaia.floorIndex_lt _ _ (hρ (3 * i + 1)).1 (hρ (3 * i + 1)).2 hpos), rfl⟩

/-- Witness for C8: on the two-feature dataset with the constant-zero
random stream, three requested arcs are produced. -/
theorem claim_C8_generate_random_arcs_witness :
    (Gaia.generateRandomArcs Gaia.testGeoJson (fun _ => 0) 3).length = 3 :=
  ((claim_C8_generate_random_arcs Gaia.testGeoJson (fun _ => 0) 3
    (fun _ => ⟨le_refl 0, by norm_num⟩)).2 (by decide)).1

/-- C9: every sidebar width produced by folding any sequence of
resize mouse-move events through the resize handler, starting from the
initial application state, lies between `MIN_SIDEBAR_WIDTH` (200) and
`MAX_SIDEBAR_WIDTH` (600) inclusive, regardless of the mouse positions. -/
theorem claim_C9_sidebar_width_clamped (events : List Gaia.MouseMoveEvent) :
    Gaia.widthsInRange
      (events.foldl (fun s e => Gaia.handleMouseMove e s) Gaia.initialAppState) := by
  apply Gaia.widthsInRange_foldl
  refine ⟨?_, ?_, ?_, ?_⟩ <;>
    norm_num [Gaia.initialAppState, Gaia.MIN_SIDEBAR_WIDTH, Gaia.MAX_SIDEBAR_WIDTH,
      Gaia.DEFAULT_SIDEBAR_WIDTH]

/-- C10: for weights in `[0, 10]` the arc color has red and green
components within `[0, 255]` and blue `0`; red is monotonically
non-decreasing and green monotonically non-increasing in the weight. -/
theorem claim_C10_arc_color (w w' : ℚ) (h0 : 0 ≤ w) (hw : w ≤ w') (h10 : w' ≤ 10) :
    (0 ≤ (Gaia.getArcColor w).1 ∧ (Gaia.getArcColor w).1 ≤ 255) ∧
    (0 ≤ (Gaia.getArcColor w).2.1 ∧ (Gaia.getArcColor w).2.1 ≤ 255) ∧
    (Gaia.getArcColor w).2.2 = 0 ∧
    (Gaia.getArcColor w).1 ≤ (Gaia.getArcColor w').1 ∧
    (Gaia.getArcColor w').2.1 ≤ (Gaia.getArcColor w).2.1 := by
  simp only [Gaia.getArcColor]
  refine ⟨⟨?_, ?_⟩, ⟨?_, ?_⟩, ?_, ?_, ?_⟩
  · exact le_min (by norm_num) (by linarith)
  · exact min_le_left _ _
  · exact le_max_left 0 _
  · exact max_le (by norm_num) (by linarith)
  · trivial
  · exact min_le_min le_rfl (by linarith)
  · exact max_le_max le_rfl (by linarith)

/-- Witness for C10 at weights `0 ≤ 10`. -/
theorem claim_C10_arc_color_witness :
    (0 ≤ (Gaia.getArcColor 0).1 ∧ (Gaia.getArcColor 0).1 ≤ 255) ∧
    (0 ≤ (Gaia.getArcColor 0).2.1 ∧ (Gaia.getArcColor 0).2.1 ≤ 255) ∧
    (Gaia.getArcColor 0).2.2 = 0 ∧
    (Gaia.getArcColor 0).1 ≤ (Gaia.getArcColor 10).1 ∧
    (Gaia.getArcColor 10).2.1 ≤ (Gaia.getArcColor 0).2.1 :=
  claim_C10_arc_color 0 10 (by norm_num) (by norm_num) (by norm_num)
